import Mathlib

/-
Verification of the base-plugin behavior of minnie-janus (session-stamp.js).

The source exports plain property/method/initializer objects describing a
Handle (a client-side proxy for one attached remote plugin instance of a
Janus gateway). We shallowly embed the handle state and every method as a
pure Lean function. Asynchronous methods are modelled as functions that
return a MethodResult: the updated handle state, the list of messages that
were passed to Session.send (tagged by which session object received them),
the list of events emitted, the number of times the overridable hooks
onAttached / onDetached were invoked, and the settled outcome of the
returned promise (resolved with a value, or rejected with an error).

JSON-serializable JavaScript values are modelled by the inductive Value
(numbers as integers, which suffices for every value the code handles).
Session objects are referenced by natural numbers; the behavior of each
session object under .send is an environment parameter
env : Nat -> Value -> Except Value Value (error = promise rejection payload).

Faithfulness notes, all taken from the source:
- init unconditionally installs a logger object (this.logger); its debug
  calls are observationally irrelevant, so they are modelled as no-ops.
- init never installs a log property, yet sendMessage, sendJsep,
  sendTrickle, hangup and receive read this.log.debug. On a handle whose
  log property is absent that member access throws a TypeError. The field
  hasLog records whether a log property is present (false after init).
- this.session.send(...) throws a TypeError when this.session is null; the
  callee member chain is evaluated before the argument object is built.
- Object spread with a trailing key ( ...obj, handle_id: v ) copies the own
  enumerable properties of obj and then writes handle_id, keeping the
  original position of an already-present key. Objects are association
  lists; setFieldList replaces the first occurrence in place or appends.
- response.data.id throws a TypeError when response or response.data is
  null or undefined; member access on other primitives yields undefined.
-/

namespace BasePlugin

/-- JSON-serializable JavaScript values, with numbers as integers. -/
inductive Value where
  | vnull : Value
  | vundefined : Value
  | vbool : Bool → Value
  | vnum : Int → Value
  | vstr : String → Value
  | vobj : List (String × Value) → Value

/-- JavaScript errors our embedding can observe: a thrown TypeError, or the
rejection payload propagated from Session.send. -/
inductive JsErr where
  | typeError : String → JsErr
  | fromSend : Value → JsErr

/-- The settled outcome of the promise returned by an async method. -/
inductive Outcome where
  | resolved : Value → Outcome
  | rejected : JsErr → Outcome

/-- Handle state: the properties object of session-stamp.js plus hasLog,
which records whether a log property is present on the object (init sets
logger but never log). -/
structure Handle where
  session : Option Nat
  id : Value
  name : String
  label : String
  attached : Bool
  hasLog : Bool

/-- Result of running one async method: final state, messages passed to
Session.send (tagged with the receiving session), events emitted, hook
invocation counts, and the promise outcome. -/
structure MethodResult where
  state : Handle
  sent : List (Nat × Value)
  emitted : List String
  onAttachedCalls : Nat
  onDetachedCalls : Nat
  outcome : Outcome

/-- Behavior of each session object under .send: resolves with a reply or
rejects with a payload. -/
def Env : Type := Nat → Value → Except Value Value

/-- First-match lookup in an association list. -/
def lookupField : List (String × Value) → String → Option Value
  | [], _ => none
  | (k, v) :: rest, key => if k = key then some v else lookupField rest key

/-- Write a key: replace the first occurrence in place, else append.
This is JavaScript property-write order for object literals. -/
def setFieldList : List (String × Value) → String → Value → List (String × Value)
  | [], key, v => [(key, v)]
  | (k, w) :: rest, key, v =>
    if k = key then (k, v) :: rest else (k, w) :: setFieldList rest key v

/-- Own enumerable properties contributed by spreading a value into an
object literal: objects give their fields, strings their indexed
characters, every other primitive nothing. -/
def spreadFields : Value → List (String × Value)
  | .vobj fs => fs
  | .vstr s => (s.data.enum.map fun p => (toString p.1, Value.vstr (String.mk [p.2])))
  | _ => []

/-- The object literal ( ...obj, key: v ). -/
def jsSpreadSet (obj : Value) (key : String) (v : Value) : Value :=
  .vobj (setFieldList (spreadFields obj) key v)

/-- Member access v.key: throws a TypeError on null/undefined, looks the key
up on objects, and yields undefined on other primitives. -/
def jsGet : Value → String → Except JsErr Value
  | .vnull, key => .error (.typeError ("Cannot read properties of null reading " ++ key))
  | .vundefined, key => .error (.typeError ("Cannot read properties of undefined reading " ++ key))
  | .vobj fs, key => .ok ((lookupField fs key).getD .vundefined)
  | _, _ => .ok .vundefined

/-- JavaScript truthiness of a value. -/
def truthy : Value → Bool
  | .vnull => false
  | .vundefined => false
  | .vbool b => b
  | .vnum n => n != 0
  | .vstr s => !s.isEmpty
  | .vobj _ => true

/-- The TypeError thrown by this.log.debug when the log property is absent. -/
def logTypeError : JsErr :=
  .typeError "Cannot read properties of undefined reading debug"

/-- The TypeError thrown by this.session.send when this.session is null. -/
def nullSessionError : JsErr :=
  .typeError "Cannot read properties of null reading send"

/-- The state of a handle freshly built from the properties object and init:
session null, id null, name and label unset, not attached, logger installed
as a field of the object but no log property. -/
def initHandle : Handle :=
  { session := none, id := .vnull, name := "unset", label := "unset"
    attached := false, hasLog := false }

/-- A method result with no sends, no events and no hook calls. -/
def pureResult (h : Handle) (o : Outcome) : MethodResult :=
  { state := h, sent := [], emitted := [], onAttachedCalls := 0
    onDetachedCalls := 0, outcome := o }

/-- Lift the result of Session.send to a promise outcome (the value returned
unchanged, a rejection propagated unchanged). -/
def sendOutcome : Except Value Value → Outcome
  | .ok v => .resolved v
  | .error e => .rejected (.fromSend e)

/-- The attach request object built by attach. -/
def attachMsg (name : String) : Value :=
  .vobj [("janus", .vstr "attach"), ("plugin", .vstr name)]

/-- Evaluation of response.data.id. -/
def responseDataId (resp : Value) : Except JsErr Value :=
  match jsGet resp "data" with
  | .error te => .error te
  | .ok d => jsGet d "id"

/-- Method attach(session): stores the session back-reference, sends the
attach request, and on a resolved reply stores the assigned id, sets
attached, calls onAttached and emits the attached event, resolving with the
reply. A rejection of Session.send, or a TypeError while reading
response.data.id, rejects attach after the session field was already
overwritten. -/
def attach (env : Env) (h : Handle) (s : Nat) : MethodResult :=
  let h1 : Handle := { h with session := some s }
  let msg := attachMsg h.name
  match env s msg with
  | .error e =>
    { state := h1, sent := [(s, msg)], emitted := [], onAttachedCalls := 0
      onDetachedCalls := 0, outcome := .rejected (.fromSend e) }
  | .ok resp =>
    match responseDataId resp with
    | .error te =>
      { state := h1, sent := [(s, msg)], emitted := [], onAttachedCalls := 0
        onDetachedCalls := 0, outcome := .rejected te }
    | .ok idv =>
      { state := { h1 with id := idv, attached := true }, sent := [(s, msg)]
        emitted := ["attached"], onAttachedCalls := 1, onDetachedCalls := 0
        outcome := .resolved resp }

/-- Method send(obj): delegates to this.session.send with the object spread
and stamped with handle_id := this.id. With a null session the member
access throws before anything is sent. -/
def send (env : Env) (h : Handle) (obj : Value) : MethodResult :=
  match h.session with
  | none => pureResult h (.rejected nullSessionError)
  | some s =>
    let msg := jsSpreadSet obj "handle_id" h.id
    { state := h, sent := [(s, msg)], emitted := [], onAttachedCalls := 0
      onDetachedCalls := 0, outcome := sendOutcome (env s msg) }

/-- Method detach(): awaits this.send with the detach verb; on resolution
clears attached, calls onDetached and emits the detached event, resolving
with undefined; a rejection of the send propagates. -/
def detach (env : Env) (h : Handle) : MethodResult :=
  let r := send env h (.vobj [("janus", .vstr "detach")])
  match r.outcome with
  | .rejected e =>
    { state := r.state, sent := r.sent, emitted := r.emitted
      onAttachedCalls := r.onAttachedCalls, onDetachedCalls := r.onDetachedCalls
      outcome := .rejected e }
  | .resolved _ =>
    { state := { r.state with attached := false }, sent := r.sent
      emitted := r.emitted ++ ["detached"], onAttachedCalls := r.onAttachedCalls
      onDetachedCalls := r.onDetachedCalls + 1, outcome := .resolved .vundefined }

/-- Method sendMessage(body = \x7b\x7d, jsep): builds the message verb object
with the body (defaulted when the argument is undefined) and adds the jsep
key only when jsep is truthy; then this.log.debug runs, which throws on a
handle without a log property; otherwise the message goes through send. -/
def sendMessage (env : Env) (h : Handle) (body jsep : Value) : MethodResult :=
  let body1 := match body with
    | .vundefined => Value.vobj []
    | b => b
  let msg0 := Value.vobj [("janus", .vstr "message"), ("body", body1)]
  let msg := if truthy jsep then jsSpreadSet msg0 "jsep" jsep else msg0
  if h.hasLog then send env h msg
  else pureResult h (.rejected logTypeError)

/-- Method sendJsep(jsep): this.log.debug (throws without a log property),
then delegates to sendMessage with an empty body. -/
def sendJsep (env : Env) (h : Handle) (jsep : Value) : MethodResult :=
  if h.hasLog then sendMessage env h (.vobj []) jsep
  else pureResult h (.rejected logTypeError)

/-- Method sendTrickle(candidate): this.log.debug, then send of the trickle
verb carrying the candidate verbatim. -/
def sendTrickle (env : Env) (h : Handle) (candidate : Value) : MethodResult :=
  if h.hasLog then send env h (.vobj [("janus", .vstr "trickle"), ("candidate", candidate)])
  else pureResult h (.rejected logTypeError)

/-- Method hangup(): this.log.debug, then send of the hangup verb. -/
def hangup (env : Env) (h : Handle) : MethodResult :=
  if h.hasLog then send env h (.vobj [("janus", .vstr "hangup")])
  else pureResult h (.rejected logTypeError)

/-- Method receive(msg): the base body is a single this.log.debug call,
which throws on a handle without a log property and otherwise resolves with
undefined, touching nothing. -/
def receive (h : Handle) (msg : Value) : MethodResult :=
  if h.hasLog then pureResult h (.resolved .vundefined)
  else pureResult h (.rejected logTypeError)

/-- Writing a key makes it the value found under that key. -/
theorem lookupField_setFieldList_same (fs : List (String × Value)) (key : String) (v : Value) :
    lookupField (setFieldList fs key v) key = some v := by
  induction fs with
  | nil => simp [setFieldList, lookupField]
  | cons p rest ih =>
    obtain ⟨k1, w⟩ := p
    by_cases h1 : k1 = key
    · simp [setFieldList, lookupField, h1]
    · simp [setFieldList, lookupField, h1, ih]

/-- Writing a key leaves every other key unchanged. -/
theorem lookupField_setFieldList_other (fs : List (String × Value)) (key k : String) (v : Value)
    (hne : k ≠ key) :
    lookupField (setFieldList fs key v) k = lookupField fs k := by
  induction fs with
  | nil => simp [setFieldList, lookupField, Ne.symm hne]
  | cons p rest ih =>
    obtain ⟨k1, w⟩ := p
    by_cases h1 : k1 = key
    · subst h1
      simp [setFieldList, lookupField, Ne.symm hne]
    · by_cases h2 : k1 = k
      · simp [setFieldList, lookupField, h1, h2, hne]
      · simp [setFieldList, lookupField, h1, h2, ih]

/-- Claim C1: on a fresh handle, when Session.send resolves the attach
request with a reply whose data.id field is n, attach sets attached to
true, sets id to n, invokes onAttached once, emits the attached event
exactly once, and resolves with the reply. -/
theorem attach_success (env : Env) (h : Handle) (s : Nat) (r n : Value)
    (hfresh : h.attached = false) (hid : h.id = Value.vnull)
    (hz : env s (attachMsg h.name) = .ok r)
    (hdi : responseDataId r = .ok n) :
    (attach env h s).state.attached = true ∧
    (attach env h s).state.id = n ∧
    (attach env h s).onAttachedCalls = 1 ∧
    (attach env h s).emitted = ["attached"] ∧
    (attach env h s).outcome = .resolved r := by
  simp [attach, hz, hdi]

def envC1 : Env := fun _ _ =>
  .ok (Value.vobj [("janus", Value.vstr "success"), ("data", Value.vobj [("id", Value.vnum 42)])])

/-- Witness for C1 at a concrete gateway reply assigning id 42. -/
theorem attach_success_witness :
    (attach envC1 initHandle 0).state.attached = true ∧
    (attach envC1 initHandle 0).state.id = Value.vnum 42 ∧
    (attach envC1 initHandle 0).onAttachedCalls = 1 ∧
    (attach envC1 initHandle 0).emitted = ["attached"] ∧
    (attach envC1 initHandle 0).outcome =
      .resolved (Value.vobj [("janus", Value.vstr "success"),
        ("data", Value.vobj [("id", Value.vnum 42)])]) :=
  attach_success envC1 initHandle 0
    (Value.vobj [("janus", Value.vstr "success"), ("data", Value.vobj [("id", Value.vnum 42)])])
    (Value.vnum 42) rfl rfl rfl rfl

/-- Claim C2: when the Session.send call made by attach rejects, attach
rejects with that rejection, attached stays false, id stays null, and
neither onAttached nor the attached event fires. -/
theorem attach_failure (env : Env) (h : Handle) (s : Nat) (e : Value)
    (hfresh : h.attached = false) (hid : h.id = Value.vnull)
    (hz : env s (attachMsg h.name) = .error e) :
    (attach env h s).outcome = .rejected (.fromSend e) ∧
    (attach env h s).state.attached = false ∧
    (attach env h s).state.id = Value.vnull ∧
    (attach env h s).onAttachedCalls = 0 ∧
    (attach env h s).emitted = [] := by
  simp [attach, hz, hfresh, hid]

def envC2 : Env := fun _ _ => .error (Value.vstr "gateway error")

/-- Witness for C2 at a concrete rejecting gateway. -/
theorem attach_failure_witness :
    (attach envC2 initHandle 0).outcome = .rejected (.fromSend (Value.vstr "gateway error")) ∧
    (attach envC2 initHandle 0).state.attached = false ∧
    (attach envC2 initHandle 0).state.id = Value.vnull ∧
    (attach envC2 initHandle 0).onAttachedCalls = 0 ∧
    (attach envC2 initHandle 0).emitted = [] :=
  attach_failure envC2 initHandle 0 (Value.vstr "gateway error") rfl rfl rfl

def handleC3cex : Handle :=
  { session := some 0, id := Value.vnum 7, name := "unset", label := "unset"
    attached := true, hasLog := false }

/-- Counterexample to claim C3: calling attach on an already-attached
handle does pass a message to Session.send; there is no synchronous
usage-error check. -/
theorem attach_already_attached_still_sends_cex :
    ¬ (attach (fun _ _ => Except.ok (Value.vobj [])) handleC3cex 1).sent = [] := by
  simp [attach, handleC3cex, responseDataId, jsGet, lookupField, attachMsg]

/-- Claim C3 amended: the code performs no usage checks. Attach on an
already-attached handle still passes the attach request to Session.send;
a plugin-traffic send on a handle whose session is null rejects with a
TypeError (thrown asynchronously, not a synchronous usage error) and
passes no message to Session.send. -/
theorem attach_and_send_without_usage_checks (env : Env) (h : Handle) (s : Nat) (obj : Value)
    (hatt : h.attached = true) :
    (attach env h s).sent = [(s, attachMsg h.name)] ∧
    (h.session = none →
      (send env h obj).sent = [] ∧
      (send env h obj).outcome = .rejected nullSessionError) := by
  constructor
  · cases hz : env s (attachMsg h.name) with
    | error e => simp [attach, hz]
    | ok r =>
      cases hdi : responseDataId r with
      | error te => simp [attach, hz, hdi]
      | ok idv => simp [attach, hz, hdi]
  · intro hn
    simp [send, hn, pureResult]

def envC3 : Env := fun _ _ => .error (Value.vstr "ignored")

def handleC3w : Handle :=
  { session := none, id := Value.vnull, name := "p", label := "l"
    attached := true, hasLog := false }

/-- Witness for amended C3 at a concrete attached handle without a session. -/
theorem attach_and_send_without_usage_checks_witness :
    (attach envC3 handleC3w 5).sent = [(5, attachMsg "p")] ∧
    (handleC3w.session = none →
      (send envC3 handleC3w (Value.vobj [])).sent = [] ∧
      (send envC3 handleC3w (Value.vobj [])).outcome = .rejected nullSessionError) :=
  attach_and_send_without_usage_checks envC3 handleC3w 5 (Value.vobj []) rfl

/-- Claim C4: whenever Session.send resolves the detach request, whatever
the reply value, detach clears attached, invokes onDetached once, emits the
detached event exactly once, and resolves. -/
theorem detach_success (env : Env) (h : Handle) (s : Nat) (r : Value)
    (hses : h.session = some s)
    (hok : env s (jsSpreadSet (Value.vobj [("janus", Value.vstr "detach")]) "handle_id" h.id)
      = .ok r) :
    (detach env h).state.attached = false ∧
    (detach env h).onDetachedCalls = 1 ∧
    (detach env h).emitted = ["detached"] ∧
    (detach env h).outcome = .resolved Value.vundefined := by
  simp [detach, send, hses, hok, sendOutcome]

def envC4 : Env := fun _ _ => .ok (Value.vobj [("janus", Value.vstr "success")])

def handleC4 : Handle :=
  { session := some 2, id := Value.vnum 42, name := "echotest", label := "demo"
    attached := true, hasLog := false }

/-- Witness for C4 at a concrete attached handle and success reply. -/
theorem detach_success_witness :
    (detach envC4 handleC4).state.attached = false ∧
    (detach envC4 handleC4).onDetachedCalls = 1 ∧
    (detach envC4 handleC4).emitted = ["detached"] ∧
    (detach envC4 handleC4).outcome = .resolved Value.vundefined :=
  detach_success envC4 handleC4 2 (Value.vobj [("janus", Value.vstr "success")]) rfl rfl

/-- Claim C5: Handle.send(obj) passes to Session.send exactly one message,
equal to obj extended with a handle_id field holding this handle's id
(every other key reads the same as in obj), and returns the result of
Session.send unchanged. -/
theorem send_stamps_handle_id (env : Env) (h : Handle) (s : Nat)
    (fields : List (String × Value)) (hses : h.session = some s) :
    ∃ m, (send env h (Value.vobj fields)).sent = [(s, m)] ∧
      jsGet m "handle_id" = .ok h.id ∧
      (∀ k, k ≠ "handle_id" → jsGet m k = jsGet (Value.vobj fields) k) ∧
      (send env h (Value.vobj fields)).outcome = sendOutcome (env s m) := by
  refine ⟨jsSpreadSet (Value.vobj fields) "handle_id" h.id, ?_, ?_, ?_, ?_⟩
  · simp [send, hses]
  · simp [jsSpreadSet, jsGet, spreadFields, lookupField_setFieldList_same]
  · intro k hk
    simp [jsSpreadSet, jsGet, spreadFields, lookupField_setFieldList_other _ _ _ _ hk]
  · simp [send, hses]

def envC5 : Env := fun _ m => .ok m

def handleC5 : Handle :=
  { session := some 3, id := Value.vnum 7, name := "p", label := "l"
    attached := true, hasLog := false }

/-- Witness for C5 at a concrete handle with id 7 and an echoing gateway. -/
theorem send_stamps_handle_id_witness :
    ∃ m, (send envC5 handleC5 (Value.vobj [("janus", Value.vstr "message")])).sent = [(3, m)] ∧
      jsGet m "handle_id" = .ok (Value.vnum 7) ∧
      (∀ k, k ≠ "handle_id" →
        jsGet m k = jsGet (Value.vobj [("janus", Value.vstr "message")]) k) ∧
      (send envC5 handleC5 (Value.vobj [("janus", Value.vstr "message")])).outcome
        = sendOutcome (envC5 3 m) :=
  send_stamps_handle_id envC5 handleC5 3 [("janus", Value.vstr "message")] rfl

/-- Claim C6 evaluated at its failing input: on a handle constructed via
init (which sets logger but not log), sendMessage rejects with the
TypeError from this.log.debug and passes nothing to Session.send, instead
of sending the message verb and returning the reply. -/
theorem sendMessage_init_handle_rejects :
    (sendMessage (fun _ _ => Except.ok (Value.vobj [])) { initHandle with session := some 0 }
      (Value.vobj []) Value.vundefined).outcome = .rejected logTypeError ∧
    (sendMessage (fun _ _ => Except.ok (Value.vobj [])) { initHandle with session := some 0 }
      (Value.vobj []) Value.vundefined).sent = [] :=
  ⟨rfl, rfl⟩

/-- Claim C7: sendJsep(jsep) is fully equivalent to sendMessage(empty
object, jsep): same state, same messages to the Session, same events, same
hook calls, same outcome, for every handle and environment. -/
theorem sendJsep_eq_sendMessage (env : Env) (h : Handle) (jsep : Value) :
    sendJsep env h jsep = sendMessage env h (Value.vobj []) jsep := by
  cases hl : h.hasLog <;> simp [sendJsep, sendMessage, hl]

/-- Claim C8 evaluated at its failing input: on a handle constructed via
init, the base receive rejects with the TypeError from this.log.debug
(init sets this.logger, never this.log) instead of completing as a log
stub; the handle state is nevertheless unchanged. -/
theorem receive_init_handle_rejects :
    (receive initHandle (Value.vobj [("janus", Value.vstr "event")])).outcome
      = .rejected logTypeError ∧
    (receive initHandle (Value.vobj [("janus", Value.vstr "event")])).state = initHandle :=
  ⟨rfl, rfl⟩

/-- Claim C9: attach overwrites the session back-reference before awaiting
the reply, so when Session.send rejects, the final state is exactly the
original handle with only the session field replaced by the new session;
attached and id (and every other field) are unchanged. -/
theorem attach_overwrites_session_on_failure (env : Env) (h : Handle) (s : Nat) (e : Value)
    (hz : env s (attachMsg h.name) = .error e) :
    (attach env h s).state = { h with session := some s } := by
  simp [attach, hz]

def envC9 : Env := fun _ _ => .error (Value.vstr "timeout")

def handleC9 : Handle :=
  { session := some 9, id := Value.vnull, name := "echotest", label := "demo"
    attached := false, hasLog := false }

/-- Witness for C9: a handle previously bound to session 9 ends bound to
session 3 even though the attach request timed out. -/
theorem attach_overwrites_session_on_failure_witness :
    (attach envC9 handleC9 3).state = { handleC9 with session := some 3 } :=
  attach_overwrites_session_on_failure envC9 handleC9 3 (Value.vstr "timeout") rfl

/-- Claim C10: a completed detach clears attached but does not reset id;
the id field keeps the previously assigned server handle id. -/
theorem detach_preserves_id (env : Env) (h : Handle) (s : Nat) (r : Value)
    (hses : h.session = some s)
    (hok : env s (jsSpreadSet (Value.vobj [("janus", Value.vstr "detach")]) "handle_id" h.id)
      = .ok r) :
    (detach env h).state.attached = false ∧ (detach env h).state.id = h.id := by
  simp [detach, send, hses, hok, sendOutcome]

def envC10 : Env := fun _ _ => .ok (Value.vobj [])

def handleC10 : Handle :=
  { session := some 4, id := Value.vnum 42, name := "q", label := "m"
    attached := true, hasLog := false }

/-- Witness for C10: after detach the id is still 42, which is not null. -/
theorem detach_preserves_id_witness :
    ((detach envC10 handleC10).state.attached = false ∧
      (detach envC10 handleC10).state.id = Value.vnum 42) ∧
    Value.vnum 42 ≠ Value.vnull :=
  ⟨detach_preserves_id envC10 handleC10 4 (Value.vobj []) rfl rfl,
    fun hc => Value.noConfusion hc⟩

end BasePlugin
